import Mathlib

/-!
Shallow embedding of `zurg-monitor.py` (Zurg Broken Torrent Monitor) and
proofs of the specification claims about it.

The embedding models:
* the rate limiter `_check_rate_limit`;
* the check-interval validation in `main` (with Python truthiness);
* the connectivity probe `test_connection` and the repair trigger
  `trigger_repair` (their treatment of empty response bodies);
* the teardown path of `run_continuous` after a `KeyboardInterrupt`
  (name resolution of the final log call);
* the reconciliation cycle `perform_check` over abstract fetch results;
* the comparison metrics of `show_check_summary`;
* the distinct-identifier count of `get_total_torrent_stats` over raw
  markup, together with the regex scan it performs.

Machine-level concerns (actual HTTP traffic, real sleeping, log files)
are abstracted into explicit inputs: a fetch result is `Option`-valued,
trigger outcomes are an oracle `String → Bool`, timestamps are `Nat`.
-/

namespace ZurgMonitor

/-! ## Rate limiter (`_check_rate_limit`, lines 274-284)

The Python method increments `self.request_count`, then compares it with
`self.rate_limit_requests`: at or above the threshold it sleeps the long
backoff and resets the counter to 0, otherwise it sleeps the short
fixed delay.  The sleep performed is recorded as a `SleepAction`. -/

/-- Which sleep the rate limiter performed on a call:
the short fixed delay (default 0.5s) or the longer backoff (default 5s). -/
inductive SleepAction : Type
  | shortDelay : SleepAction
  | backoff : SleepAction
deriving DecidableEq, Repr

/-- The mutable counter state of the rate limiter (`self.request_count`). -/
structure RateState : Type where
  request_count : Nat
deriving DecidableEq, Repr

/-- `_check_rate_limit`: increment the counter; if it has reached the
configured threshold, back off and reset to 0, else short delay. -/
def check_rate_limit (rate_limit_requests : Nat) (s : RateState) :
    RateState × SleepAction :=
  let count := s.request_count + 1
  if rate_limit_requests ≤ count then
    (⟨0⟩, SleepAction.backoff)
  else
    (⟨count⟩, SleepAction.shortDelay)

/-- Counter state after `k` client calls, starting from the initial
zero counter (`self.request_count = 0` set in `__init__`). -/
def stateAfterCalls (rate_limit_requests : Nat) : Nat → RateState
  | 0 => ⟨0⟩
  | k + 1 => (check_rate_limit rate_limit_requests (stateAfterCalls rate_limit_requests k)).1

/-- The sleep incurred by the `k`-th call (1-indexed) starting from the
zero counter. -/
def sleepOfCall (rate_limit_requests : Nat) (k : Nat) : SleepAction :=
  (check_rate_limit rate_limit_requests (stateAfterCalls rate_limit_requests (k - 1))).2

/-! ## Check-interval validation (`main`, lines 1021-1024) and
`load_config` fallback (lines 938-939)

`main` runs `if args.check_interval and args.check_interval < 1:` and
returns exit code 1 when that holds.  Python truthiness makes the guard
skip the value `0`.  `load_config` later runs
`if args.check_interval: config['check_interval'] = args.check_interval`,
again skipping `0`, so `0` silently keeps the default interval 30. -/

/-- Python truthiness of an optional integer command-line argument
(`None` and `0` are falsy). -/
def pyTruthyInt : Option Int → Bool
  | none => false
  | some n => n ≠ 0

/-- The check-interval validation in `main`: `some 1` means the process
returns exit code 1 at startup, `none` means execution continues. -/
def validate_check_interval (check_interval : Option Int) : Option Nat :=
  if pyTruthyInt check_interval && decide (check_interval.getD 0 < 1) then
    some 1
  else
    none

/-- The `check_interval` value `load_config` leaves in the config after
CLI merging: the CLI value when truthy, the default 30 otherwise. -/
def config_check_interval (check_interval : Option Int) : Int :=
  if pyTruthyInt check_interval then check_interval.getD 0 else 30

/-! ## Connectivity probe and repair trigger (lines 304-343, 515-538)

`_make_request` returns the response body bytes or `None` on any
failure; a response body is modelled as a list of bytes.
`test_connection` tests the body with Python truthiness (`if content:`),
so an empty body counts as failure; `trigger_repair` tests
`if content is not None:`, so an empty body counts as success. -/

/-- Python truthiness of an optional `bytes` value: `None` and the
empty byte string are falsy. -/
def pyTruthyBytes : Option (List Nat) → Bool
  | none => false
  | some b => !b.isEmpty

/-- `test_connection`, as a function of the `_make_request` result for
`GET {base}/stats`: returns `true` exactly when the body is truthy. -/
def test_connection (resp : Option (List Nat)) : Bool :=
  if pyTruthyBytes resp then true else false

/-- `trigger_repair`, as a function of dry-run mode and the
`_make_request` result for `POST .../repair`: in dry-run mode it
reports success without a request; otherwise success is
`content is not None`. -/
def trigger_repair_result (dry_run : Bool) (resp : Option (List Nat)) : Bool :=
  if dry_run then true
  else if resp.isSome then true else false

/-- The exit code of `run_once` as a function of the probe response:
`if not self.test_connection(): return 1`, else the run completes and
returns 0. -/
def run_once_exit (probe_resp : Option (List Nat)) : Nat :=
  if test_connection probe_resp then 0 else 1

/-! ## Teardown of `run_continuous` (lines 857-877)

When the monitoring loop is interrupted (`KeyboardInterrupt`), the
`except KeyboardInterrupt` handler logs a warning and the `finally`
block runs: it logs a blank line, calls `show_overall_statistics()`
(emitting the final report), and then executes
`self._log("Monitoring stopped", LogLevelOUTPUT)` before `return 0`.
Evaluating the bare name `LogLevelOUTPUT` requires it to be bound in
the local, module or builtin scope; we embed the relevant name
environment from the source file and model name resolution. -/

/-- The names bound at module level in `zurg-monitor.py`: imports,
module constants, the classes and the two functions. -/
def moduleLevelNames : List String :=
  ["argparse", "base64", "configparser", "json", "logging", "os", "re",
   "sys", "time", "dataclass", "field", "datetime", "Enum", "unescape",
   "RotatingFileHandler", "Path", "quote", "urllib", "HTTPResponse",
   "VERSION", "SCRIPT_NAME", "LogLevel", "Colors", "TorrentInfo",
   "CheckStats", "OverallStats", "ZurgMonitor", "load_config", "main"]

/-- The local names bound inside `run_continuous` when its `finally`
block runs after a `KeyboardInterrupt`: the parameter `self` and the
local `auth_status` (the `except` target `e` is scoped to the other
handler and deleted on exit). -/
def runContinuousLocalNames : List String := ["self", "auth_status"]

/-- Python name resolution for a bare name inside `run_continuous`:
`some ()` when the name is bound (local or module scope), `none` when
evaluating it raises `NameError`. -/
def resolveName (n : String) : Option Unit :=
  if (runContinuousLocalNames ++ moduleLevelNames).contains n then some ()
  else none

/-- Outcome of the `finally` block of `run_continuous` after an
interrupt: whether the overall-statistics report was emitted, and either
the value returned (`Except.ok`) or the uncaught exception it raised
(`Except.error`). -/
structure TeardownOutcome : Type where
  statsReported : Bool
  result : Except String Nat
deriving Repr

/-- The `finally` block of `run_continuous` after `KeyboardInterrupt`:
`show_overall_statistics()` runs, then
`self._log("Monitoring stopped", LogLevelOUTPUT)` evaluates the name
`LogLevelOUTPUT`; if that name is unbound a `NameError` propagates and
the `return 0` is never reached. -/
def run_continuous_teardown : TeardownOutcome :=
  match resolveName "LogLevelOUTPUT" with
  | some _ => { statsReported := true, result := Except.ok 0 }
  | none => { statsReported := true,
              result := Except.error "NameError: name LogLevelOUTPUT is not defined" }

/-- The process exit status for `sys.exit(main())` given `main`'s
outcome: the returned value on normal return, 1 when an uncaught
exception propagates (CPython prints a traceback and exits with 1). -/
def processExitCode : Except String Nat → Nat
  | Except.ok n => n
  | Except.error _ => 1

/-! ## The reconciliation cycle `perform_check` (lines 540-678)

The cycle is a function of: the starting `OverallStats`, the current
timestamp (`datetime.now()`, abstracted to a `Nat`), the result of
`get_total_torrent_stats` (`Option Nat`), the two category fetch
results (`Option (List TorrentInfo)` — `none` models a failed fetch),
the dry-run flag and an oracle giving each repair request's outcome.
Besides the updated statistics, the model records the hashes for which
`trigger_repair` was called, whether the cycle aborted for dual fetch
failure, and how many partial-failure warnings were logged. -/

/-- `TorrentInfo` (lines 61-66): hash, display name, state string. -/
structure TorrentInfo : Type where
  hash : String
  name : String
  state : String
deriving DecidableEq, Repr

/-- `CheckStats` (lines 69-80): statistics of a single check.
`ok_torrents` is an `Int`: the source computes it by Python integer
subtraction and never clamps it. -/
structure CheckStats : Type where
  broken_found : Nat := 0
  under_repair_found : Nat := 0
  repairs_triggered : Nat := 0
  broken_hashes : List String := []
  broken_names : List String := []
  under_repair_hashes : List String := []
  under_repair_names : List String := []
  total_torrents : Nat := 0
  ok_torrents : Int := 0
deriving DecidableEq, Repr

/-- `OverallStats` (lines 83-95): process-lifetime statistics.
Timestamps are abstract `Option Nat` values. -/
structure OverallStats : Type where
  total_checks : Nat := 0
  broken_found : Nat := 0
  under_repair_found : Nat := 0
  repairs_triggered : Nat := 0
  last_check : Option Nat := none
  last_broken_found : Option Nat := none
  current_check : CheckStats := {}
  previous_check_broken : List String := []
  previous_check_under_repair : List String := []
  previous_check_triggered : List String := []
deriving DecidableEq, Repr

/-- The boolean result of one `trigger_repair` call in `perform_check`:
dry-run always succeeds; otherwise the oracle gives the HTTP outcome
for this hash. -/
def trigger_repair (dry_run : Bool) (oracle : String → Bool) (hash : String) : Bool :=
  if dry_run then true else oracle hash

/-- The repair-trigger loop over one torrent list (lines 647-653 and
660-665): call `trigger_repair` per torrent; on success increment both
the per-check and the cumulative `repairs_triggered` counters. -/
def triggerAll (dry_run : Bool) (oracle : String → Bool) :
    List TorrentInfo → OverallStats → OverallStats
  | [], s => s
  | t :: rest, s =>
    let success := trigger_repair dry_run oracle t.hash
    let s' := if success then
        { s with repairs_triggered := s.repairs_triggered + 1,
                 current_check :=
                   { s.current_check with
                       repairs_triggered := s.current_check.repairs_triggered + 1 } }
      else s
    triggerAll dry_run oracle rest s'

/-- The observable outcome of one `perform_check` cycle. -/
structure CycleOutcome : Type where
  stats : OverallStats
  /-- hashes for which `trigger_repair` was called, in call order -/
  attempted : List String
  /-- `true` when both category fetches failed and the cycle returned early -/
  aborted : Bool
  /-- number of partial-failure warnings logged (one per failed fetch on
  the non-aborting path) -/
  partial_warnings : Nat
deriving DecidableEq, Repr

/-- Line 546: `self.stats.current_check = CheckStats()`. -/
def reset_current_check (stats : OverallStats) : OverallStats :=
  { stats with current_check := {} }

/-- Lines 549-551: record the `get_total_torrent_stats` result when the
fetch succeeded. -/
def apply_total_stats (total_stats : Option Nat) (s : OverallStats) : OverallStats :=
  match total_stats with
  | some t => { s with current_check := { s.current_check with total_torrents := t } }
  | none => s

/-- Lines 566-567 and 581-582: count the check and record its time. -/
def record_check (now : Nat) (s : OverallStats) : OverallStats :=
  { s with total_checks := s.total_checks + 1, last_check := some now }

/-- Lines 585-590: process broken torrents (counts and, when the list
is nonempty, the last-broken timestamp). -/
def process_broken_counts (now : Nat) (broken_torrents : List TorrentInfo)
    (s : OverallStats) : OverallStats :=
  if broken_torrents ≠ [] then
    { s with
        current_check := { s.current_check with broken_found := broken_torrents.length },
        broken_found := s.broken_found + broken_torrents.length,
        last_broken_found :=
          if 0 < broken_torrents.length then some now else s.last_broken_found }
  else s

/-- Lines 593-595: process under-repair torrents (counts). -/
def process_under_repair_counts (under_repair_torrents : List TorrentInfo)
    (s : OverallStats) : OverallStats :=
  if under_repair_torrents ≠ [] then
    { s with
        current_check :=
          { s.current_check with under_repair_found := under_repair_torrents.length },
        under_repair_found := s.under_repair_found + under_repair_torrents.length }
  else s

/-- Lines 598-603: `ok = total - broken - under_repair` when a total is
known (Python integer subtraction, no clamping). -/
def compute_ok_torrents (s : OverallStats) : OverallStats :=
  if 0 < s.current_check.total_torrents then
    { s with
        current_check :=
          { s.current_check with
              ok_torrents :=
                (s.current_check.total_torrents : Int) -
                  (s.current_check.broken_found : Int) -
                  (s.current_check.under_repair_found : Int) } }
  else s

/-- Lines 610-616: the display loop appends broken hashes and names. -/
def append_broken_lists (broken_torrents : List TorrentInfo)
    (s : OverallStats) : OverallStats :=
  if broken_torrents ≠ [] then
    { s with
        current_check :=
          { s.current_check with
              broken_hashes :=
                s.current_check.broken_hashes ++ broken_torrents.map TorrentInfo.hash,
              broken_names :=
                s.current_check.broken_names ++ broken_torrents.map TorrentInfo.name } }
  else s

/-- Lines 619-625: the display loop appends under-repair hashes and
names. -/
def append_under_repair_lists (under_repair_torrents : List TorrentInfo)
    (s : OverallStats) : OverallStats :=
  if under_repair_torrents ≠ [] then
    { s with
        current_check :=
          { s.current_check with
              under_repair_hashes :=
                s.current_check.under_repair_hashes ++
                  under_repair_torrents.map TorrentInfo.hash,
              under_repair_names :=
                s.current_check.under_repair_names ++
                  under_repair_torrents.map TorrentInfo.name } }
  else s

/-- Lines 636-639: the healthy-cycle snapshot save —
`previous_check_triggered` becomes the empty list. -/
def save_healthy_snapshot (s : OverallStats) : OverallStats :=
  { s with
      previous_check_broken := s.current_check.broken_hashes,
      previous_check_under_repair := s.current_check.under_repair_hashes,
      previous_check_triggered := [] }

/-- Lines 673-678: the end-of-cycle snapshot save —
`previous_check_triggered` is the concatenation of the two current
hash lists. -/
def save_snapshot (s : OverallStats) : OverallStats :=
  { s with
      previous_check_broken := s.current_check.broken_hashes,
      previous_check_under_repair := s.current_check.under_repair_hashes,
      previous_check_triggered :=
        s.current_check.broken_hashes ++ s.current_check.under_repair_hashes }

/-- `perform_check` (lines 540-678), step by step:
reset `current_check`; record the total-stats fetch; abort early when
both category fetches failed (still counting the check); otherwise
substitute `[]` for a failed category with a warning, update counters,
compute `ok_torrents`, record hash/name lists, and either declare the
cycle healthy (both lists empty: no triggers, `previous_check_triggered`
becomes `[]`) or trigger repairs for every listed torrent and save the
current lists as the previous-cycle snapshot. -/
def perform_check (stats : OverallStats) (now : Nat) (total_stats : Option Nat)
    (broken_fetch under_repair_fetch : Option (List TorrentInfo))
    (dry_run : Bool) (oracle : String → Bool) : CycleOutcome :=
  let s1 : OverallStats := apply_total_stats total_stats (reset_current_check stats)
  if broken_fetch.isNone && under_repair_fetch.isNone then
    -- both API calls failed: count the check, record the time, return
    { stats := record_check now s1,
      attempted := [], aborted := true, partial_warnings := 0 }
  else
    -- substitute an empty list for a failed category (with a warning)
    let partial_warnings :=
      (if broken_fetch.isNone then 1 else 0) + (if under_repair_fetch.isNone then 1 else 0)
    let broken_torrents := broken_fetch.getD []
    let under_repair_torrents := under_repair_fetch.getD []
    let s7 : OverallStats :=
      append_under_repair_lists under_repair_torrents
        (append_broken_lists broken_torrents
          (compute_ok_torrents
            (process_under_repair_counts under_repair_torrents
              (process_broken_counts now broken_torrents
                (record_check now s1)))))
    if broken_torrents = [] ∧ under_repair_torrents = [] then
      -- healthy: no triggers; previous_check_triggered := []
      { stats := save_healthy_snapshot s7,
        attempted := [], aborted := false, partial_warnings := partial_warnings }
    else
      -- trigger repairs for broken, then for under-repair torrents
      let s8 : OverallStats :=
        if broken_torrents ≠ [] then triggerAll dry_run oracle broken_torrents s7 else s7
      let s9 : OverallStats :=
        if under_repair_torrents ≠ [] then
          triggerAll dry_run oracle under_repair_torrents s8
        else s8
      { stats := save_snapshot s9,
        attempted :=
          (if broken_torrents ≠ [] then broken_torrents.map TorrentInfo.hash else []) ++
            (if under_repair_torrents ≠ [] then
              under_repair_torrents.map TorrentInfo.hash
            else []),
        aborted := false, partial_warnings := partial_warnings }

/-! ## Comparison metrics of `show_check_summary` (lines 739-754)

Each metric is a `sum(1 for h in list if condition)` over the previous-
or current-cycle identifier lists; conditions are Python `in` / `not in`
membership tests.  They are modelled with `List.countP`. -/

/-- `repaired`: previously triggered identifiers in neither current list. -/
def repaired (previous_check_triggered current_broken_hashes
    current_under_repair_hashes : List String) : Nat :=
  previous_check_triggered.countP fun h =>
    decide (h ∉ current_broken_hashes ∧ h ∉ current_under_repair_hashes)

/-- `moved_to_repair`: previously broken identifiers now under repair. -/
def moved_to_repair (previous_check_broken
    current_under_repair_hashes : List String) : Nat :=
  previous_check_broken.countP fun h => decide (h ∈ current_under_repair_hashes)

/-- `still_broken`: previously broken identifiers still broken. -/
def still_broken (previous_check_broken current_broken_hashes : List String) : Nat :=
  previous_check_broken.countP fun h => decide (h ∈ current_broken_hashes)

/-- `still_under_repair`: previously under-repair identifiers still under repair. -/
def still_under_repair (previous_check_under_repair
    current_under_repair_hashes : List String) : Nat :=
  previous_check_under_repair.countP fun h => decide (h ∈ current_under_repair_hashes)

/-- `new_broken`: currently broken identifiers in neither previous list. -/
def new_broken (current_broken_hashes previous_check_broken
    previous_check_under_repair : List String) : Nat :=
  current_broken_hashes.countP fun h =>
    decide (h ∉ previous_check_broken ∧ h ∉ previous_check_under_repair)

/-! ## Total-count scan of `get_total_torrent_stats` (lines 496-507)

The method scans the full-listing markup with the regular expression
`data-hash="([a-fA-F0-9]{40})"` (`re.finditer`: leftmost matches,
non-overlapping), lowercases each captured group, inserts it into a
set and returns the set's size.  Markup is modelled as `List Char`. -/

/-- The character class `[a-fA-F0-9]`. -/
def isHexChar (c : Char) : Bool :=
  ('a' ≤ c && c ≤ 'f') || ('A' ≤ c && c ≤ 'F') || ('0' ≤ c && c ≤ '9')

/-- The literal part `data-hash="` of the scan pattern. -/
def dataHashLit : List Char :=
  ['d', 'a', 't', 'a', '-', 'h', 'a', 's', 'h', '=', '\"']

/-- Try to match `data-hash="([a-fA-F0-9]{40})"` at the start of `l`,
returning the captured 40 hex characters.  A successful match spans
exactly 52 characters. -/
def matchHashAttrAt (l : List Char) : Option (List Char) :=
  if l.take 11 = dataHashLit then
    if ((l.drop 11).take 40).length = 40 && ((l.drop 11).take 40).all isHexChar then
      match (l.drop 11).drop 40 with
      | '\"' :: _ => some ((l.drop 11).take 40)
      | _ => none
    else none
  else none

/-- `re.finditer` over the markup: scan left to right, and after a
match resume just past its 52 characters (non-overlapping matches). -/
def findHashAttrs : List Char → List (List Char)
  | [] => []
  | c :: rest =>
    match matchHashAttrAt (c :: rest) with
    | some h => h :: findHashAttrs (rest.drop 51)
    | none => findHashAttrs rest
termination_by l => l.length
decreasing_by
  · simp only [List.length_cons, List.length_drop]
    omega
  · simp

/-- Python `str.lower()` on a captured identifier. -/
def lowerHash (h : List Char) : List Char := h.map Char.toLower

/-- `get_total_torrent_stats` as a function of the fetched markup: the
size of the set of lowercased captured identifiers. -/
def get_total_torrent_stats (html_content : List Char) : Nat :=
  ((findHashAttrs html_content).map lowerHash).toFinset.card

/-- The set formulation following the spec's words: the distinct
(case-folded) identifiers found anywhere in the markup — an identifier
is found wherever the `data-hash` identifier attribute carrying it
matches at any position of the markup, whatever category section it
lies in. -/
def identifiersInMarkup (markup : List Char) : Finset (List Char) :=
  ((markup.tails.filterMap matchHashAttrAt).map lowerHash).toFinset

/-! ## Helper lemmas -/

/-- Before the threshold is reached, the rate-limiter counter simply
counts the calls made: after `k < N` calls it holds exactly `k`. -/
lemma stateAfterCalls_of_lt (N : Nat) :
    ∀ k, k < N → stateAfterCalls N k = ⟨k⟩ := by
  intro k
  induction k with
  | zero => intro _; rfl
  | succ k ih =>
    intro hk
    have hk' : k < N := Nat.lt_of_succ_lt hk
    have hcond : ¬ N ≤ k + 1 := by omega
    simp [stateAfterCalls, ih hk', check_rate_limit, hcond]

/-! ## Claim theorems (first group) -/

/-- Claim C3 counterexample: at the default threshold 10 the claim
"calls 1 through N each incur only the short fixed delay, and the
(N+1)th call incurs the longer backoff" is false — the 10th call
already incurs the backoff, and the 11th call incurs the short delay. -/
theorem rate_limit_claim_counterexample :
    sleepOfCall 10 10 = SleepAction.backoff ∧
    sleepOfCall 10 11 = SleepAction.shortDelay := by decide

/-- Claim C3 (amended): starting from the zero counter, the rate
limiter increments the counter once per call; calls `1 .. N-1` each
incur only the short fixed delay (leaving the counter at the call
number), the `N`th call incurs the longer backoff sleep and resets the
counter to 0, and (for `N ≥ 2`) the `(N+1)`th call again incurs the
short delay. -/
theorem rate_limit_behavior (N k : Nat) (hN : 1 ≤ N) :
    (k < N → stateAfterCalls N k = ⟨k⟩) ∧
    (1 ≤ k → k < N → sleepOfCall N k = SleepAction.shortDelay) ∧
    sleepOfCall N N = SleepAction.backoff ∧
    stateAfterCalls N N = ⟨0⟩ ∧
    (2 ≤ N → sleepOfCall N (N + 1) = SleepAction.shortDelay) := by
  have hstateN : stateAfterCalls N N = ⟨0⟩ := by
    obtain ⟨M, rfl⟩ : ∃ M, N = M + 1 := ⟨N - 1, by omega⟩
    have hM : stateAfterCalls (M + 1) M = ⟨M⟩ :=
      stateAfterCalls_of_lt (M + 1) M (by omega)
    simp [stateAfterCalls, hM, check_rate_limit]
  refine ⟨stateAfterCalls_of_lt N k, ?_, ?_, hstateN, ?_⟩
  · intro h1 hk
    have hst : stateAfterCalls N (k - 1) = ⟨k - 1⟩ :=
      stateAfterCalls_of_lt N (k - 1) (by omega)
    have hcond : ¬ N ≤ (k - 1) + 1 := by omega
    simp [sleepOfCall, hst, check_rate_limit, hcond]
  · have hst : stateAfterCalls N (N - 1) = ⟨N - 1⟩ :=
      stateAfterCalls_of_lt N (N - 1) (by omega)
    have hcond : N ≤ (N - 1) + 1 := by omega
    simp [sleepOfCall, hst, check_rate_limit, hcond]
  · intro h2
    have hcond : ¬ N ≤ 0 + 1 := by omega
    simp [sleepOfCall, hstateN, check_rate_limit, hcond]

/-- Claim C3 witness: the amended behavior at the default threshold 10,
checked at call 3 of the short-delay phase. -/
theorem rate_limit_behavior_witness :
    (3 < 10 → stateAfterCalls 10 3 = ⟨3⟩) ∧
    (1 ≤ 3 → 3 < 10 → sleepOfCall 10 3 = SleepAction.shortDelay) ∧
    sleepOfCall 10 10 = SleepAction.backoff ∧
    stateAfterCalls 10 10 = ⟨0⟩ ∧
    (2 ≤ 10 → sleepOfCall 10 11 = SleepAction.shortDelay) :=
  rate_limit_behavior 10 3 (by decide)

/-- Claim C7: the startup validation rejects negative intervals with
exit code 1, but the interval `0` — although `0 < 1` — is *not*
rejected: Python truthiness makes `if args.check_interval and
args.check_interval < 1` skip `0`, and `load_config` then silently
falls back to the default interval 30. -/
theorem check_interval_zero_skips_validation :
    validate_check_interval (some 0) = none ∧
    ((0 : Int) < 1) ∧
    config_check_interval (some 0) = 30 ∧
    validate_check_interval (some (-3)) = some 1 ∧
    validate_check_interval (some (-1)) = some 1 := by decide

/-- Claim C2: after a `KeyboardInterrupt` in the monitoring loop the
teardown emits the overall-statistics report, but then evaluating the
undefined name `LogLevelOUTPUT` (a typo for `LogLevel.OUTPUT`) raises
`NameError` before `return 0`; the uncaught exception terminates the
process with exit code 1, not 0 as the specification states. -/
theorem run_continuous_interrupt_exit :
    run_continuous_teardown.statsReported = true ∧
    run_continuous_teardown.result =
      Except.error "NameError: name LogLevelOUTPUT is not defined" ∧
    processExitCode run_continuous_teardown.result = 1 :=
  ⟨rfl, rfl, rfl⟩

/-- Claim C10: `test_connection` succeeds exactly when the probe
response is a non-`None`, non-empty body (Python truthiness of bytes);
an empty body is reported as a connection failure and makes `run_once`
exit with code 1, while `trigger_repair` (non-dry-run) treats every
non-`None` response — the empty body included — as success. -/
theorem test_connection_empty_body (resp : Option (List Nat)) :
    (test_connection resp = true ↔ ∃ b, resp = some b ∧ b ≠ []) ∧
    (trigger_repair_result false resp = true ↔ resp ≠ none) ∧
    test_connection (some []) = false ∧
    run_once_exit (some []) = 1 ∧
    trigger_repair_result false (some []) = true := by
  refine ⟨?_, ?_, by decide, by decide, by decide⟩
  · cases resp with
    | none => simp [test_connection, pyTruthyBytes]
    | some b =>
      cases b with
      | nil => simp [test_connection, pyTruthyBytes]
      | cons x xs => simp [test_connection, pyTruthyBytes]
  · cases resp <;> simp [trigger_repair_result]

/-- Counting the elements of a duplicate-free list that satisfy a
decidable predicate is the cardinality of the corresponding filtered
finset. -/
lemma countP_eq_card_filter_toFinset {α : Type} [DecidableEq α] (l : List α)
    (hl : l.Nodup) (p : α → Prop) [DecidablePred p] :
    (l.countP fun a => decide (p a)) = (l.toFinset.filter p).card := by
  rw [List.countP_eq_length_filter,
    ← List.toFinset_card_of_nodup (hl.filter (fun a => decide (p a))),
    List.toFinset_filter]
  congr 1
  apply Finset.ext
  intro a
  simp

/-- Claim C1: for duplicate-free identifier lists (with the two current
categories disjoint), the comparison metrics of `show_check_summary`
are exactly the set formulas of the specification — hence a pure
function of the five identifier sets. -/
theorem comparison_metrics_eq_set_formulas
    (current_broken current_under_repair previous_broken previous_under_repair
      previous_triggered : List String)
    (hcb : current_broken.Nodup) (hcr : current_under_repair.Nodup)
    (hpb : previous_broken.Nodup) (hpr : previous_under_repair.Nodup)
    (hpt : previous_triggered.Nodup)
    (hdisj : ∀ x ∈ current_broken, x ∉ current_under_repair) :
    repaired previous_triggered current_broken current_under_repair =
      (previous_triggered.toFinset \
        (current_broken.toFinset ∪ current_under_repair.toFinset)).card ∧
    moved_to_repair previous_broken current_under_repair =
      (previous_broken.toFinset ∩ current_under_repair.toFinset).card ∧
    still_broken previous_broken current_broken =
      (previous_broken.toFinset ∩ current_broken.toFinset).card ∧
    still_under_repair previous_under_repair current_under_repair =
      (previous_under_repair.toFinset ∩ current_under_repair.toFinset).card ∧
    new_broken current_broken previous_broken previous_under_repair =
      ((current_broken.toFinset \ previous_broken.toFinset) \
        previous_under_repair.toFinset).card := by
  refine ⟨?_, ?_, ?_, ?_, ?_⟩
  · rw [repaired, countP_eq_card_filter_toFinset _ hpt]
    congr 1
    apply Finset.ext
    intro a
    simp only [Finset.mem_filter, Finset.mem_sdiff, Finset.mem_union,
      List.mem_toFinset]
    tauto
  · rw [moved_to_repair, countP_eq_card_filter_toFinset _ hpb]
    congr 1
    apply Finset.ext
    intro a
    simp only [Finset.mem_filter, Finset.mem_inter, List.mem_toFinset]
  · rw [still_broken, countP_eq_card_filter_toFinset _ hpb]
    congr 1
    apply Finset.ext
    intro a
    simp only [Finset.mem_filter, Finset.mem_inter, List.mem_toFinset]
  · rw [still_under_repair, countP_eq_card_filter_toFinset _ hpr]
    congr 1
    apply Finset.ext
    intro a
    simp only [Finset.mem_filter, Finset.mem_inter, List.mem_toFinset]
  · rw [new_broken, countP_eq_card_filter_toFinset _ hcb]
    congr 1
    apply Finset.ext
    intro a
    simp only [Finset.mem_filter, Finset.mem_sdiff, List.mem_toFinset]
    tauto

/-- Claim C1 witness: the specification's own fixture
(previous_broken = {a,b}, previous_under_repair = ∅, current_broken =
{c}, current_under_repair = ∅, previous_triggered = {a,b,c}). -/
theorem comparison_metrics_eq_set_formulas_witness :
    (["c"] : List String).Nodup ∧
    ([] : List String).Nodup ∧
    (["a", "b"] : List String).Nodup ∧
    (["a", "b", "c"] : List String).Nodup ∧
    (∀ x ∈ (["c"] : List String), x ∉ ([] : List String)) ∧
    (repaired ["a", "b", "c"] ["c"] [] =
      ((["a", "b", "c"] : List String).toFinset \
        ((["c"] : List String).toFinset ∪ ([] : List String).toFinset)).card ∧
    moved_to_repair ["a", "b"] [] =
      ((["a", "b"] : List String).toFinset ∩ ([] : List String).toFinset).card ∧
    still_broken ["a", "b"] ["c"] =
      ((["a", "b"] : List String).toFinset ∩ (["c"] : List String).toFinset).card ∧
    still_under_repair [] [] =
      (([] : List String).toFinset ∩ ([] : List String).toFinset).card ∧
    new_broken ["c"] ["a", "b"] [] =
      (((["c"] : List String).toFinset \ (["a", "b"] : List String).toFinset) \
        ([] : List String).toFinset).card) :=
  ⟨by decide, by decide, by decide, by decide, by decide,
    comparison_metrics_eq_set_formulas ["c"] [] ["a", "b"] [] ["a", "b", "c"]
      (by decide) (by decide) (by decide) (by decide) (by decide) (by decide)⟩

/-! Preservation lemmas for the repair-trigger loop: besides the two
`repairs_triggered` counters (which only grow), `triggerAll` leaves
every field of the statistics unchanged. -/

lemma triggerAll_total_checks (d : Bool) (o : String → Bool) (l : List TorrentInfo) :
    ∀ s, (triggerAll d o l s).total_checks = s.total_checks := by
  induction l with
  | nil => intro s; rfl
  | cons t rest ih =>
    intro s
    simp only [triggerAll]
    rw [ih]
    split <;> rfl

lemma triggerAll_broken_found (d : Bool) (o : String → Bool) (l : List TorrentInfo) :
    ∀ s, (triggerAll d o l s).broken_found = s.broken_found := by
  induction l with
  | nil => intro s; rfl
  | cons t rest ih =>
    intro s
    simp only [triggerAll]
    rw [ih]
    split <;> rfl

lemma triggerAll_under_repair_found (d : Bool) (o : String → Bool) (l : List TorrentInfo) :
    ∀ s, (triggerAll d o l s).under_repair_found = s.under_repair_found := by
  induction l with
  | nil => intro s; rfl
  | cons t rest ih =>
    intro s
    simp only [triggerAll]
    rw [ih]
    split <;> rfl

lemma triggerAll_cc_broken_found (d : Bool) (o : String → Bool) (l : List TorrentInfo) :
    ∀ s, (triggerAll d o l s).current_check.broken_found =
      s.current_check.broken_found := by
  induction l with
  | nil => intro s; rfl
  | cons t rest ih =>
    intro s
    simp only [triggerAll]
    rw [ih]
    split <;> rfl

lemma triggerAll_cc_broken_hashes (d : Bool) (o : String → Bool) (l : List TorrentInfo) :
    ∀ s, (triggerAll d o l s).current_check.broken_hashes =
      s.current_check.broken_hashes := by
  induction l with
  | nil => intro s; rfl
  | cons t rest ih =>
    intro s
    simp only [triggerAll]
    rw [ih]
    split <;> rfl

lemma triggerAll_cc_under_repair_found (d : Bool) (o : String → Bool)
    (l : List TorrentInfo) :
    ∀ s, (triggerAll d o l s).current_check.under_repair_found =
      s.current_check.under_repair_found := by
  induction l with
  | nil => intro s; rfl
  | cons t rest ih =>
    intro s
    simp only [triggerAll]
    rw [ih]
    split <;> rfl

lemma triggerAll_cc_under_repair_hashes (d : Bool) (o : String → Bool)
    (l : List TorrentInfo) :
    ∀ s, (triggerAll d o l s).current_check.under_repair_hashes =
      s.current_check.under_repair_hashes := by
  induction l with
  | nil => intro s; rfl
  | cons t rest ih =>
    intro s
    simp only [triggerAll]
    rw [ih]
    split <;> rfl

lemma triggerAll_repairs_triggered_le (d : Bool) (o : String → Bool)
    (l : List TorrentInfo) :
    ∀ s, s.repairs_triggered ≤ (triggerAll d o l s).repairs_triggered := by
  induction l with
  | nil => intro s; exact Nat.le_refl _
  | cons t rest ih =>
    intro s
    simp only [triggerAll]
    refine Nat.le_trans ?_ (ih _)
    split
    · exact Nat.le_succ _
    · exact Nat.le_refl _

/-- Claim C5: when both category fetches fail, `perform_check`
increments the total-checks counter and records the check time, and
changes nothing else: the per-check counters are zero, no repair is
attempted, and the cumulative counters, timestamps and all three
previous-cycle snapshot lists are untouched. -/
theorem dual_failure_frame (stats : OverallStats) (now : Nat)
    (total_stats : Option Nat) (broken_fetch under_repair_fetch : Option (List TorrentInfo))
    (dry_run : Bool) (oracle : String → Bool)
    (hb : broken_fetch = none) (hu : under_repair_fetch = none) :
    (perform_check stats now total_stats broken_fetch under_repair_fetch
        dry_run oracle).aborted = true ∧
    (perform_check stats now total_stats broken_fetch under_repair_fetch
        dry_run oracle).attempted = [] ∧
    (perform_check stats now total_stats broken_fetch under_repair_fetch
        dry_run oracle).stats.total_checks = stats.total_checks + 1 ∧
    (perform_check stats now total_stats broken_fetch under_repair_fetch
        dry_run oracle).stats.last_check = some now ∧
    (perform_check stats now total_stats broken_fetch under_repair_fetch
        dry_run oracle).stats.current_check.broken_found = 0 ∧
    (perform_check stats now total_stats broken_fetch under_repair_fetch
        dry_run oracle).stats.current_check.under_repair_found = 0 ∧
    (perform_check stats now total_stats broken_fetch under_repair_fetch
        dry_run oracle).stats.current_check.repairs_triggered = 0 ∧
    (perform_check stats now total_stats broken_fetch under_repair_fetch
        dry_run oracle).stats.broken_found = stats.broken_found ∧
    (perform_check stats now total_stats broken_fetch under_repair_fetch
        dry_run oracle).stats.under_repair_found = stats.under_repair_found ∧
    (perform_check stats now total_stats broken_fetch under_repair_fetch
        dry_run oracle).stats.repairs_triggered = stats.repairs_triggered ∧
    (perform_check stats now total_stats broken_fetch under_repair_fetch
        dry_run oracle).stats.last_broken_found = stats.last_broken_found ∧
    (perform_check stats now total_stats broken_fetch under_repair_fetch
        dry_run oracle).stats.previous_check_broken = stats.previous_check_broken ∧
    (perform_check stats now total_stats broken_fetch under_repair_fetch
        dry_run oracle).stats.previous_check_under_repair =
      stats.previous_check_under_repair ∧
    (perform_check stats now total_stats broken_fetch under_repair_fetch
        dry_run oracle).stats.previous_check_triggered =
      stats.previous_check_triggered := by
  subst hb hu
  cases total_stats <;>
    exact ⟨rfl, rfl, rfl, rfl, rfl, rfl, rfl, rfl, rfl, rfl, rfl, rfl, rfl, rfl⟩

set_option maxHeartbeats 1000000 in
/-- Claim C5 witness: a dual fetch failure evaluated on a concrete
starting state (one previous check on record, a succeeding total-count
fetch). -/
theorem dual_failure_frame_witness :
    ((none : Option (List TorrentInfo)) = none) ∧
    ((none : Option (List TorrentInfo)) = none) ∧
    ((perform_check
        { total_checks := 4, broken_found := 2, under_repair_found := 1,
          repairs_triggered := 3, last_check := some 7, last_broken_found := some 6,
          current_check := {}, previous_check_broken := ["b1"],
          previous_check_under_repair := ["u1"], previous_check_triggered := ["b1", "u1"] }
        9 (some 12) none none false (fun _ => true)).aborted = true ∧
    (perform_check
        { total_checks := 4, broken_found := 2, under_repair_found := 1,
          repairs_triggered := 3, last_check := some 7, last_broken_found := some 6,
          current_check := {}, previous_check_broken := ["b1"],
          previous_check_under_repair := ["u1"], previous_check_triggered := ["b1", "u1"] }
        9 (some 12) none none false (fun _ => true)).attempted = [] ∧
    (perform_check
        { total_checks := 4, broken_found := 2, under_repair_found := 1,
          repairs_triggered := 3, last_check := some 7, last_broken_found := some 6,
          current_check := {}, previous_check_broken := ["b1"],
          previous_check_under_repair := ["u1"], previous_check_triggered := ["b1", "u1"] }
        9 (some 12) none none false (fun _ => true)).stats.total_checks = 4 + 1 ∧
    (perform_check
        { total_checks := 4, broken_found := 2, under_repair_found := 1,
          repairs_triggered := 3, last_check := some 7, last_broken_found := some 6,
          current_check := {}, previous_check_broken := ["b1"],
          previous_check_under_repair := ["u1"], previous_check_triggered := ["b1", "u1"] }
        9 (some 12) none none false (fun _ => true)).stats.last_check = some 9 ∧
    (perform_check
        { total_checks := 4, broken_found := 2, under_repair_found := 1,
          repairs_triggered := 3, last_check := some 7, last_broken_found := some 6,
          current_check := {}, previous_check_broken := ["b1"],
          previous_check_under_repair := ["u1"], previous_check_triggered := ["b1", "u1"] }
        9 (some 12) none none false (fun _ => true)).stats.current_check.broken_found = 0 ∧
    (perform_check
        { total_checks := 4, broken_found := 2, under_repair_found := 1,
          repairs_triggered := 3, last_check := some 7, last_broken_found := some 6,
          current_check := {}, previous_check_broken := ["b1"],
          previous_check_under_repair := ["u1"], previous_check_triggered := ["b1", "u1"] }
        9 (some 12) none none false
        (fun _ => true)).stats.current_check.under_repair_found = 0 ∧
    (perform_check
        { total_checks := 4, broken_found := 2, under_repair_found := 1,
          repairs_triggered := 3, last_check := some 7, last_broken_found := some 6,
          current_check := {}, previous_check_broken := ["b1"],
          previous_check_under_repair := ["u1"], previous_check_triggered := ["b1", "u1"] }
        9 (some 12) none none false
        (fun _ => true)).stats.current_check.repairs_triggered = 0 ∧
    (perform_check
        { total_checks := 4, broken_found := 2, under_repair_found := 1,
          repairs_triggered := 3, last_check := some 7, last_broken_found := some 6,
          current_check := {}, previous_check_broken := ["b1"],
          previous_check_under_repair := ["u1"], previous_check_triggered := ["b1", "u1"] }
        9 (some 12) none none false (fun _ => true)).stats.broken_found = 2 ∧
    (perform_check
        { total_checks := 4, broken_found := 2, under_repair_found := 1,
          repairs_triggered := 3, last_check := some 7, last_broken_found := some 6,
          current_check := {}, previous_check_broken := ["b1"],
          previous_check_under_repair := ["u1"], previous_check_triggered := ["b1", "u1"] }
        9 (some 12) none none false (fun _ => true)).stats.under_repair_found = 1 ∧
    (perform_check
        { total_checks := 4, broken_found := 2, under_repair_found := 1,
          repairs_triggered := 3, last_check := some 7, last_broken_found := some 6,
          current_check := {}, previous_check_broken := ["b1"],
          previous_check_under_repair := ["u1"], previous_check_triggered := ["b1", "u1"] }
        9 (some 12) none none false (fun _ => true)).stats.repairs_triggered = 3 ∧
    (perform_check
        { total_checks := 4, broken_found := 2, under_repair_found := 1,
          repairs_triggered := 3, last_check := some 7, last_broken_found := some 6,
          current_check := {}, previous_check_broken := ["b1"],
          previous_check_under_repair := ["u1"], previous_check_triggered := ["b1", "u1"] }
        9 (some 12) none none false (fun _ => true)).stats.last_broken_found = some 6 ∧
    (perform_check
        { total_checks := 4, broken_found := 2, under_repair_found := 1,
          repairs_triggered := 3, last_check := some 7, last_broken_found := some 6,
          current_check := {}, previous_check_broken := ["b1"],
          previous_check_under_repair := ["u1"], previous_check_triggered := ["b1", "u1"] }
        9 (some 12) none none false (fun _ => true)).stats.previous_check_broken = ["b1"] ∧
    (perform_check
        { total_checks := 4, broken_found := 2, under_repair_found := 1,
          repairs_triggered := 3, last_check := some 7, last_broken_found := some 6,
          current_check := {}, previous_check_broken := ["b1"],
          previous_check_under_repair := ["u1"], previous_check_triggered := ["b1", "u1"] }
        9 (some 12) none none false
        (fun _ => true)).stats.previous_check_under_repair = ["u1"] ∧
    (perform_check
        { total_checks := 4, broken_found := 2, under_repair_found := 1,
          repairs_triggered := 3, last_check := some 7, last_broken_found := some 6,
          current_check := {}, previous_check_broken := ["b1"],
          previous_check_under_repair := ["u1"], previous_check_triggered := ["b1", "u1"] }
        9 (some 12) none none false
        (fun _ => true)).stats.previous_check_triggered = ["b1", "u1"]) :=
  ⟨rfl, rfl,
    dual_failure_frame
      { total_checks := 4, broken_found := 2, under_repair_found := 1,
        repairs_triggered := 3, last_check := some 7, last_broken_found := some 6,
        current_check := {}, previous_check_broken := ["b1"],
        previous_check_under_repair := ["u1"], previous_check_triggered := ["b1", "u1"] }
      9 (some 12) none none false (fun _ => true) rfl rfl⟩

/-! Field lemmas for the cycle stages: which statistics fields each
stage changes and which it leaves alone. -/

@[simp] lemma rcc_total_checks (s : OverallStats) :
    (reset_current_check s).total_checks = s.total_checks := rfl

@[simp] lemma rcc_broken_found (s : OverallStats) :
    (reset_current_check s).broken_found = s.broken_found := rfl

@[simp] lemma rcc_under_repair_found (s : OverallStats) :
    (reset_current_check s).under_repair_found = s.under_repair_found := rfl

@[simp] lemma rcc_repairs_triggered (s : OverallStats) :
    (reset_current_check s).repairs_triggered = s.repairs_triggered := rfl

@[simp] lemma rcc_current_check (s : OverallStats) :
    (reset_current_check s).current_check = {} := rfl

@[simp] lemma ats_total_checks (t : Option Nat) (s : OverallStats) :
    (apply_total_stats t s).total_checks = s.total_checks := by
  cases t <;> rfl

@[simp] lemma ats_broken_found (t : Option Nat) (s : OverallStats) :
    (apply_total_stats t s).broken_found = s.broken_found := by
  cases t <;> rfl

@[simp] lemma ats_under_repair_found (t : Option Nat) (s : OverallStats) :
    (apply_total_stats t s).under_repair_found = s.under_repair_found := by
  cases t <;> rfl

@[simp] lemma ats_repairs_triggered (t : Option Nat) (s : OverallStats) :
    (apply_total_stats t s).repairs_triggered = s.repairs_triggered := by
  cases t <;> rfl

@[simp] lemma ats_cc_broken_found (t : Option Nat) (s : OverallStats) :
    (apply_total_stats t s).current_check.broken_found =
      s.current_check.broken_found := by
  cases t <;> rfl

@[simp] lemma ats_cc_under_repair_found (t : Option Nat) (s : OverallStats) :
    (apply_total_stats t s).current_check.under_repair_found =
      s.current_check.under_repair_found := by
  cases t <;> rfl

@[simp] lemma ats_cc_repairs_triggered (t : Option Nat) (s : OverallStats) :
    (apply_total_stats t s).current_check.repairs_triggered =
      s.current_check.repairs_triggered := by
  cases t <;> rfl

@[simp] lemma ats_cc_broken_hashes (t : Option Nat) (s : OverallStats) :
    (apply_total_stats t s).current_check.broken_hashes =
      s.current_check.broken_hashes := by
  cases t <;> rfl

@[simp] lemma ats_cc_under_repair_hashes (t : Option Nat) (s : OverallStats) :
    (apply_total_stats t s).current_check.under_repair_hashes =
      s.current_check.under_repair_hashes := by
  cases t <;> rfl

@[simp] lemma ats_cc_ok_torrents (t : Option Nat) (s : OverallStats) :
    (apply_total_stats t s).current_check.ok_torrents =
      s.current_check.ok_torrents := by
  cases t <;> rfl

@[simp] lemma rc_total_checks (now : Nat) (s : OverallStats) :
    (record_check now s).total_checks = s.total_checks + 1 := rfl

@[simp] lemma rc_broken_found (now : Nat) (s : OverallStats) :
    (record_check now s).broken_found = s.broken_found := rfl

@[simp] lemma rc_under_repair_found (now : Nat) (s : OverallStats) :
    (record_check now s).under_repair_found = s.under_repair_found := rfl

@[simp] lemma rc_repairs_triggered (now : Nat) (s : OverallStats) :
    (record_check now s).repairs_triggered = s.repairs_triggered := rfl

@[simp] lemma rc_current_check (now : Nat) (s : OverallStats) :
    (record_check now s).current_check = s.current_check := rfl

@[simp] lemma pbc_total_checks (now : Nat) (bl : List TorrentInfo) (s : OverallStats) :
    (process_broken_counts now bl s).total_checks = s.total_checks := by
  unfold process_broken_counts; split <;> rfl

@[simp] lemma pbc_under_repair_found (now : Nat) (bl : List TorrentInfo)
    (s : OverallStats) :
    (process_broken_counts now bl s).under_repair_found = s.under_repair_found := by
  unfold process_broken_counts; split <;> rfl

@[simp] lemma pbc_repairs_triggered (now : Nat) (bl : List TorrentInfo)
    (s : OverallStats) :
    (process_broken_counts now bl s).repairs_triggered = s.repairs_triggered := by
  unfold process_broken_counts; split <;> rfl

lemma pbc_broken_found_le (now : Nat) (bl : List TorrentInfo) (s : OverallStats) :
    s.broken_found ≤ (process_broken_counts now bl s).broken_found := by
  unfold process_broken_counts
  split
  · exact Nat.le_add_right _ _
  · exact Nat.le_refl _

@[simp] lemma pbc_cc_under_repair_found (now : Nat) (bl : List TorrentInfo)
    (s : OverallStats) :
    (process_broken_counts now bl s).current_check.under_repair_found =
      s.current_check.under_repair_found := by
  unfold process_broken_counts; split <;> rfl

@[simp] lemma pbc_cc_repairs_triggered (now : Nat) (bl : List TorrentInfo)
    (s : OverallStats) :
    (process_broken_counts now bl s).current_check.repairs_triggered =
      s.current_check.repairs_triggered := by
  unfold process_broken_counts; split <;> rfl

@[simp] lemma pbc_cc_broken_hashes (now : Nat) (bl : List TorrentInfo)
    (s : OverallStats) :
    (process_broken_counts now bl s).current_check.broken_hashes =
      s.current_check.broken_hashes := by
  unfold process_broken_counts; split <;> rfl

@[simp] lemma pbc_cc_under_repair_hashes (now : Nat) (bl : List TorrentInfo)
    (s : OverallStats) :
    (process_broken_counts now bl s).current_check.under_repair_hashes =
      s.current_check.under_repair_hashes := by
  unfold process_broken_counts; split <;> rfl

@[simp] lemma pbc_cc_total_torrents (now : Nat) (bl : List TorrentInfo)
    (s : OverallStats) :
    (process_broken_counts now bl s).current_check.total_torrents =
      s.current_check.total_torrents := by
  unfold process_broken_counts; split <;> rfl

@[simp] lemma pbc_cc_ok_torrents (now : Nat) (bl : List TorrentInfo)
    (s : OverallStats) :
    (process_broken_counts now bl s).current_check.ok_torrents =
      s.current_check.ok_torrents := by
  unfold process_broken_counts; split <;> rfl

lemma pbc_nil (now : Nat) (s : OverallStats) :
    process_broken_counts now [] s = s := by
  unfold process_broken_counts; simp

@[simp] lemma puc_total_checks (ul : List TorrentInfo) (s : OverallStats) :
    (process_under_repair_counts ul s).total_checks = s.total_checks := by
  unfold process_under_repair_counts; split <;> rfl

@[simp] lemma puc_broken_found (ul : List TorrentInfo) (s : OverallStats) :
    (process_under_repair_counts ul s).broken_found = s.broken_found := by
  unfold process_under_repair_counts; split <;> rfl

@[simp] lemma puc_repairs_triggered (ul : List TorrentInfo) (s : OverallStats) :
    (process_under_repair_counts ul s).repairs_triggered = s.repairs_triggered := by
  unfold process_under_repair_counts; split <;> rfl

lemma puc_under_repair_found_le (ul : List TorrentInfo) (s : OverallStats) :
    s.under_repair_found ≤ (process_under_repair_counts ul s).under_repair_found := by
  unfold process_under_repair_counts
  split
  · exact Nat.le_add_right _ _
  · exact Nat.le_refl _

@[simp] lemma puc_cc_broken_found (ul : List TorrentInfo) (s : OverallStats) :
    (process_under_repair_counts ul s).current_check.broken_found =
      s.current_check.broken_found := by
  unfold process_under_repair_counts; split <;> rfl

@[simp] lemma puc_cc_repairs_triggered (ul : List TorrentInfo) (s : OverallStats) :
    (process_under_repair_counts ul s).current_check.repairs_triggered =
      s.current_check.repairs_triggered := by
  unfold process_under_repair_counts; split <;> rfl

@[simp] lemma puc_cc_broken_hashes (ul : List TorrentInfo) (s : OverallStats) :
    (process_under_repair_counts ul s).current_check.broken_hashes =
      s.current_check.broken_hashes := by
  unfold process_under_repair_counts; split <;> rfl

@[simp] lemma puc_cc_under_repair_hashes (ul : List TorrentInfo) (s : OverallStats) :
    (process_under_repair_counts ul s).current_check.under_repair_hashes =
      s.current_check.under_repair_hashes := by
  unfold process_under_repair_counts; split <;> rfl

@[simp] lemma puc_cc_total_torrents (ul : List TorrentInfo) (s : OverallStats) :
    (process_under_repair_counts ul s).current_check.total_torrents =
      s.current_check.total_torrents := by
  unfold process_under_repair_counts; split <;> rfl

@[simp] lemma puc_cc_ok_torrents (ul : List TorrentInfo) (s : OverallStats) :
    (process_under_repair_counts ul s).current_check.ok_torrents =
      s.current_check.ok_torrents := by
  unfold process_under_repair_counts; split <;> rfl

lemma puc_nil (s : OverallStats) :
    process_under_repair_counts [] s = s := by
  unfold process_under_repair_counts; simp

@[simp] lemma cok_total_checks (s : OverallStats) :
    (compute_ok_torrents s).total_checks = s.total_checks := by
  unfold compute_ok_torrents; split <;> rfl

@[simp] lemma cok_broken_found (s : OverallStats) :
    (compute_ok_torrents s).broken_found = s.broken_found := by
  unfold compute_ok_torrents; split <;> rfl

@[simp] lemma cok_under_repair_found (s : OverallStats) :
    (compute_ok_torrents s).under_repair_found = s.under_repair_found := by
  unfold compute_ok_torrents; split <;> rfl

@[simp] lemma cok_repairs_triggered (s : OverallStats) :
    (compute_ok_torrents s).repairs_triggered = s.repairs_triggered := by
  unfold compute_ok_torrents; split <;> rfl

@[simp] lemma cok_cc_broken_found (s : OverallStats) :
    (compute_ok_torrents s).current_check.broken_found =
      s.current_check.broken_found := by
  unfold compute_ok_torrents; split <;> rfl

@[simp] lemma cok_cc_under_repair_found (s : OverallStats) :
    (compute_ok_torrents s).current_check.under_repair_found =
      s.current_check.under_repair_found := by
  unfold compute_ok_torrents; split <;> rfl

@[simp] lemma cok_cc_repairs_triggered (s : OverallStats) :
    (compute_ok_torrents s).current_check.repairs_triggered =
      s.current_check.repairs_triggered := by
  unfold compute_ok_torrents; split <;> rfl

@[simp] lemma cok_cc_broken_hashes (s : OverallStats) :
    (compute_ok_torrents s).current_check.broken_hashes =
      s.current_check.broken_hashes := by
  unfold compute_ok_torrents; split <;> rfl

@[simp] lemma cok_cc_under_repair_hashes (s : OverallStats) :
    (compute_ok_torrents s).current_check.under_repair_hashes =
      s.current_check.under_repair_hashes := by
  unfold compute_ok_torrents; split <;> rfl

@[simp] lemma cok_cc_total_torrents (s : OverallStats) :
    (compute_ok_torrents s).current_check.total_torrents =
      s.current_check.total_torrents := by
  unfold compute_ok_torrents; split <;> rfl

/-- When no broken or under-repair entities were counted and the reset
`ok_torrents` is still 0, `compute_ok_torrents` makes `ok_torrents`
coincide with `total_torrents` (whether or not a total is known). -/
lemma cok_healthy (s : OverallStats)
    (hb : s.current_check.broken_found = 0)
    (hu : s.current_check.under_repair_found = 0)
    (ho : s.current_check.ok_torrents = 0) :
    (compute_ok_torrents s).current_check.ok_torrents =
      ((compute_ok_torrents s).current_check.total_torrents : Int) := by
  unfold compute_ok_torrents
  split
  · simp [hb, hu]
  · next h =>
    have h0 : s.current_check.total_torrents = 0 := by omega
    simp [ho, h0]

@[simp] lemma abl_total_checks (bl : List TorrentInfo) (s : OverallStats) :
    (append_broken_lists bl s).total_checks = s.total_checks := by
  unfold append_broken_lists; split <;> rfl

@[simp] lemma abl_broken_found (bl : List TorrentInfo) (s : OverallStats) :
    (append_broken_lists bl s).broken_found = s.broken_found := by
  unfold append_broken_lists; split <;> rfl

@[simp] lemma abl_under_repair_found (bl : List TorrentInfo) (s : OverallStats) :
    (append_broken_lists bl s).under_repair_found = s.under_repair_found := by
  unfold append_broken_lists; split <;> rfl

@[simp] lemma abl_repairs_triggered (bl : List TorrentInfo) (s : OverallStats) :
    (append_broken_lists bl s).repairs_triggered = s.repairs_triggered := by
  unfold append_broken_lists; split <;> rfl

@[simp] lemma abl_cc_broken_found (bl : List TorrentInfo) (s : OverallStats) :
    (append_broken_lists bl s).current_check.broken_found =
      s.current_check.broken_found := by
  unfold append_broken_lists; split <;> rfl

@[simp] lemma abl_cc_under_repair_found (bl : List TorrentInfo) (s : OverallStats) :
    (append_broken_lists bl s).current_check.under_repair_found =
      s.current_check.under_repair_found := by
  unfold append_broken_lists; split <;> rfl

@[simp] lemma abl_cc_repairs_triggered (bl : List TorrentInfo) (s : OverallStats) :
    (append_broken_lists bl s).current_check.repairs_triggered =
      s.current_check.repairs_triggered := by
  unfold append_broken_lists; split <;> rfl

@[simp] lemma abl_cc_under_repair_hashes (bl : List TorrentInfo) (s : OverallStats) :
    (append_broken_lists bl s).current_check.under_repair_hashes =
      s.current_check.under_repair_hashes := by
  unfold append_broken_lists; split <;> rfl

@[simp] lemma abl_cc_total_torrents (bl : List TorrentInfo) (s : OverallStats) :
    (append_broken_lists bl s).current_check.total_torrents =
      s.current_check.total_torrents := by
  unfold append_broken_lists; split <;> rfl

@[simp] lemma abl_cc_ok_torrents (bl : List TorrentInfo) (s : OverallStats) :
    (append_broken_lists bl s).current_check.ok_torrents =
      s.current_check.ok_torrents := by
  unfold append_broken_lists; split <;> rfl

lemma abl_nil (s : OverallStats) : append_broken_lists [] s = s := by
  unfold append_broken_lists; simp

@[simp] lemma aul_total_checks (ul : List TorrentInfo) (s : OverallStats) :
    (append_under_repair_lists ul s).total_checks = s.total_checks := by
  unfold append_under_repair_lists; split <;> rfl

@[simp] lemma aul_broken_found (ul : List TorrentInfo) (s : OverallStats) :
    (append_under_repair_lists ul s).broken_found = s.broken_found := by
  unfold append_under_repair_lists; split <;> rfl

@[simp] lemma aul_under_repair_found (ul : List TorrentInfo) (s : OverallStats) :
    (append_under_repair_lists ul s).under_repair_found = s.under_repair_found := by
  unfold append_under_repair_lists; split <;> rfl

@[simp] lemma aul_repairs_triggered (ul : List TorrentInfo) (s : OverallStats) :
    (append_under_repair_lists ul s).repairs_triggered = s.repairs_triggered := by
  unfold append_under_repair_lists; split <;> rfl

@[simp] lemma aul_cc_broken_found (ul : List TorrentInfo) (s : OverallStats) :
    (append_under_repair_lists ul s).current_check.broken_found =
      s.current_check.broken_found := by
  unfold append_under_repair_lists; split <;> rfl

@[simp] lemma aul_cc_under_repair_found (ul : List TorrentInfo) (s : OverallStats) :
    (append_under_repair_lists ul s).current_check.under_repair_found =
      s.current_check.under_repair_found := by
  unfold append_under_repair_lists; split <;> rfl

@[simp] lemma aul_cc_repairs_triggered (ul : List TorrentInfo) (s : OverallStats) :
    (append_under_repair_lists ul s).current_check.repairs_triggered =
      s.current_check.repairs_triggered := by
  unfold append_under_repair_lists; split <;> rfl

@[simp] lemma aul_cc_broken_hashes (ul : List TorrentInfo) (s : OverallStats) :
    (append_under_repair_lists ul s).current_check.broken_hashes =
      s.current_check.broken_hashes := by
  unfold append_under_repair_lists; split <;> rfl

@[simp] lemma aul_cc_total_torrents (ul : List TorrentInfo) (s : OverallStats) :
    (append_under_repair_lists ul s).current_check.total_torrents =
      s.current_check.total_torrents := by
  unfold append_under_repair_lists; split <;> rfl

@[simp] lemma aul_cc_ok_torrents (ul : List TorrentInfo) (s : OverallStats) :
    (append_under_repair_lists ul s).current_check.ok_torrents =
      s.current_check.ok_torrents := by
  unfold append_under_repair_lists; split <;> rfl

lemma aul_nil (s : OverallStats) : append_under_repair_lists [] s = s := by
  unfold append_under_repair_lists; simp

@[simp] lemma shs_total_checks (s : OverallStats) :
    (save_healthy_snapshot s).total_checks = s.total_checks := rfl

@[simp] lemma shs_broken_found (s : OverallStats) :
    (save_healthy_snapshot s).broken_found = s.broken_found := rfl

@[simp] lemma shs_under_repair_found (s : OverallStats) :
    (save_healthy_snapshot s).under_repair_found = s.under_repair_found := rfl

@[simp] lemma shs_repairs_triggered (s : OverallStats) :
    (save_healthy_snapshot s).repairs_triggered = s.repairs_triggered := rfl

@[simp] lemma shs_current_check (s : OverallStats) :
    (save_healthy_snapshot s).current_check = s.current_check := rfl

@[simp] lemma shs_previous_check_triggered (s : OverallStats) :
    (save_healthy_snapshot s).previous_check_triggered = [] := rfl

@[simp] lemma ss_total_checks (s : OverallStats) :
    (save_snapshot s).total_checks = s.total_checks := rfl

@[simp] lemma ss_broken_found (s : OverallStats) :
    (save_snapshot s).broken_found = s.broken_found := rfl

@[simp] lemma ss_under_repair_found (s : OverallStats) :
    (save_snapshot s).under_repair_found = s.under_repair_found := rfl

@[simp] lemma ss_repairs_triggered (s : OverallStats) :
    (save_snapshot s).repairs_triggered = s.repairs_triggered := rfl

@[simp] lemma ss_current_check (s : OverallStats) :
    (save_snapshot s).current_check = s.current_check := rfl

/-! Lemmas for the guarded trigger loops (`if torrents ≠ [] then
triggerAll ... else ...`). -/

@[simp] lemma ite_triggerAll_total_checks (c : Prop) [Decidable c] (d : Bool)
    (o : String → Bool) (l : List TorrentInfo) (s : OverallStats) :
    (if c then triggerAll d o l s else s).total_checks = s.total_checks := by
  split
  · rw [triggerAll_total_checks]
  · rfl

@[simp] lemma ite_triggerAll_broken_found (c : Prop) [Decidable c] (d : Bool)
    (o : String → Bool) (l : List TorrentInfo) (s : OverallStats) :
    (if c then triggerAll d o l s else s).broken_found = s.broken_found := by
  split
  · rw [triggerAll_broken_found]
  · rfl

@[simp] lemma ite_triggerAll_under_repair_found (c : Prop) [Decidable c] (d : Bool)
    (o : String → Bool) (l : List TorrentInfo) (s : OverallStats) :
    (if c then triggerAll d o l s else s).under_repair_found =
      s.under_repair_found := by
  split
  · rw [triggerAll_under_repair_found]
  · rfl

@[simp] lemma ite_triggerAll_cc_broken_found (c : Prop) [Decidable c] (d : Bool)
    (o : String → Bool) (l : List TorrentInfo) (s : OverallStats) :
    (if c then triggerAll d o l s else s).current_check.broken_found =
      s.current_check.broken_found := by
  split
  · rw [triggerAll_cc_broken_found]
  · rfl

@[simp] lemma ite_triggerAll_cc_broken_hashes (c : Prop) [Decidable c] (d : Bool)
    (o : String → Bool) (l : List TorrentInfo) (s : OverallStats) :
    (if c then triggerAll d o l s else s).current_check.broken_hashes =
      s.current_check.broken_hashes := by
  split
  · rw [triggerAll_cc_broken_hashes]
  · rfl

@[simp] lemma ite_triggerAll_cc_under_repair_found (c : Prop) [Decidable c] (d : Bool)
    (o : String → Bool) (l : List TorrentInfo) (s : OverallStats) :
    (if c then triggerAll d o l s else s).current_check.under_repair_found =
      s.current_check.under_repair_found := by
  split
  · rw [triggerAll_cc_under_repair_found]
  · rfl

@[simp] lemma ite_triggerAll_cc_under_repair_hashes (c : Prop) [Decidable c] (d : Bool)
    (o : String → Bool) (l : List TorrentInfo) (s : OverallStats) :
    (if c then triggerAll d o l s else s).current_check.under_repair_hashes =
      s.current_check.under_repair_hashes := by
  split
  · rw [triggerAll_cc_under_repair_hashes]
  · rfl

lemma ite_triggerAll_repairs_triggered_le (c : Prop) [Decidable c] (d : Bool)
    (o : String → Bool) (l : List TorrentInfo) (s : OverallStats) :
    s.repairs_triggered ≤ (if c then triggerAll d o l s else s).repairs_triggered := by
  split
  · exact triggerAll_repairs_triggered_le d o l s
  · exact Nat.le_refl _

/-! The same lemmas with the branches flipped (the orientation `simp`
produces when it rewrites an `if _ ≠ [] then _ else _`). -/

@[simp] lemma ite_triggerAll_total_checks₂ (c : Prop) [Decidable c] (d : Bool)
    (o : String → Bool) (l : List TorrentInfo) (s : OverallStats) :
    (if c then s else triggerAll d o l s).total_checks = s.total_checks := by
  split
  · rfl
  · rw [triggerAll_total_checks]

@[simp] lemma ite_triggerAll_broken_found₂ (c : Prop) [Decidable c] (d : Bool)
    (o : String → Bool) (l : List TorrentInfo) (s : OverallStats) :
    (if c then s else triggerAll d o l s).broken_found = s.broken_found := by
  split
  · rfl
  · rw [triggerAll_broken_found]

@[simp] lemma ite_triggerAll_under_repair_found₂ (c : Prop) [Decidable c] (d : Bool)
    (o : String → Bool) (l : List TorrentInfo) (s : OverallStats) :
    (if c then s else triggerAll d o l s).under_repair_found =
      s.under_repair_found := by
  split
  · rfl
  · rw [triggerAll_under_repair_found]

@[simp] lemma ite_triggerAll_cc_broken_found₂ (c : Prop) [Decidable c] (d : Bool)
    (o : String → Bool) (l : List TorrentInfo) (s : OverallStats) :
    (if c then s else triggerAll d o l s).current_check.broken_found =
      s.current_check.broken_found := by
  split
  · rfl
  · rw [triggerAll_cc_broken_found]

@[simp] lemma ite_triggerAll_cc_broken_hashes₂ (c : Prop) [Decidable c] (d : Bool)
    (o : String → Bool) (l : List TorrentInfo) (s : OverallStats) :
    (if c then s else triggerAll d o l s).current_check.broken_hashes =
      s.current_check.broken_hashes := by
  split
  · rfl
  · rw [triggerAll_cc_broken_hashes]

@[simp] lemma ite_triggerAll_cc_under_repair_found₂ (c : Prop) [Decidable c]
    (d : Bool) (o : String → Bool) (l : List TorrentInfo) (s : OverallStats) :
    (if c then s else triggerAll d o l s).current_check.under_repair_found =
      s.current_check.under_repair_found := by
  split
  · rfl
  · rw [triggerAll_cc_under_repair_found]

@[simp] lemma ite_triggerAll_cc_under_repair_hashes₂ (c : Prop) [Decidable c]
    (d : Bool) (o : String → Bool) (l : List TorrentInfo) (s : OverallStats) :
    (if c then s else triggerAll d o l s).current_check.under_repair_hashes =
      s.current_check.under_repair_hashes := by
  split
  · rfl
  · rw [triggerAll_cc_under_repair_hashes]

lemma ite_triggerAll_repairs_triggered_le₂ (c : Prop) [Decidable c] (d : Bool)
    (o : String → Bool) (l : List TorrentInfo) (s : OverallStats) :
    s.repairs_triggered ≤ (if c then s else triggerAll d o l s).repairs_triggered := by
  split
  · exact Nat.le_refl _
  · exact triggerAll_repairs_triggered_le d o l s

/-- Claim C4: in a cycle where both current category lists are empty
(each fetch returned an empty list or failed, but not both failed), no
repair trigger fires, the `previous_check_triggered` snapshot is
replaced by the empty list, and `ok_torrents` equals `total_torrents`
for that cycle. -/
theorem healthy_cycle (stats : OverallStats) (now : Nat) (total_stats : Option Nat)
    (broken_fetch under_repair_fetch : Option (List TorrentInfo))
    (dry_run : Bool) (oracle : String → Bool)
    (hb : broken_fetch = none ∨ broken_fetch = some [])
    (hu : under_repair_fetch = none ∨ under_repair_fetch = some [])
    (hone : broken_fetch ≠ none ∨ under_repair_fetch ≠ none) :
    (perform_check stats now total_stats broken_fetch under_repair_fetch
        dry_run oracle).aborted = false ∧
    (perform_check stats now total_stats broken_fetch under_repair_fetch
        dry_run oracle).attempted = [] ∧
    (perform_check stats now total_stats broken_fetch under_repair_fetch
        dry_run oracle).stats.repairs_triggered = stats.repairs_triggered ∧
    (perform_check stats now total_stats broken_fetch under_repair_fetch
        dry_run oracle).stats.current_check.repairs_triggered = 0 ∧
    (perform_check stats now total_stats broken_fetch under_repair_fetch
        dry_run oracle).stats.previous_check_triggered = [] ∧
    (perform_check stats now total_stats broken_fetch under_repair_fetch
        dry_run oracle).stats.current_check.ok_torrents =
      ((perform_check stats now total_stats broken_fetch under_repair_fetch
          dry_run oracle).stats.current_check.total_torrents : Int) := by
  rcases hb with rfl | rfl <;> rcases hu with rfl | rfl
  · rcases hone with h | h <;> exact absurd rfl h
  all_goals
    simp [perform_check, pbc_nil, puc_nil, abl_nil, aul_nil, cok_healthy]

/-- Claim C4 witness: a healthy cycle on the default statistics with a
succeeding total-count fetch of 7 torrents, an empty broken list and a
failed under-repair fetch. -/
theorem healthy_cycle_witness :
    ((some ([] : List TorrentInfo)) = none ∨
      (some ([] : List TorrentInfo)) = some []) ∧
    ((none : Option (List TorrentInfo)) = none ∨
      (none : Option (List TorrentInfo)) = some []) ∧
    ((some ([] : List TorrentInfo)) ≠ none ∨
      (none : Option (List TorrentInfo)) ≠ none) ∧
    ((perform_check {} 5 (some 7) (some []) none false (fun _ => true)).aborted =
        false ∧
      (perform_check {} 5 (some 7) (some []) none false (fun _ => true)).attempted =
        [] ∧
      (perform_check {} 5 (some 7) (some []) none false
          (fun _ => true)).stats.repairs_triggered = 0 ∧
      (perform_check {} 5 (some 7) (some []) none false
          (fun _ => true)).stats.current_check.repairs_triggered = 0 ∧
      (perform_check {} 5 (some 7) (some []) none false
          (fun _ => true)).stats.previous_check_triggered = [] ∧
      (perform_check {} 5 (some 7) (some []) none false
          (fun _ => true)).stats.current_check.ok_torrents =
        ((perform_check {} 5 (some 7) (some []) none false
            (fun _ => true)).stats.current_check.total_torrents : Int)) :=
  ⟨Or.inr rfl, Or.inl rfl, Or.inl (by decide),
    healthy_cycle {} 5 (some 7) (some []) none false (fun _ => true)
      (Or.inr rfl) (Or.inl rfl) (Or.inl (by decide))⟩

/-- Claim C6: when exactly one category fetch fails, the cycle does not
abort: exactly one warning is logged, the failed category is processed
as an empty list (its per-check count is 0 and its hash list empty),
and every entity of the successfully fetched category still gets its
repair trigger attempted. -/
theorem partial_failure_still_processes (stats : OverallStats) (now : Nat)
    (total_stats : Option Nat)
    (broken_fetch under_repair_fetch : Option (List TorrentInfo))
    (l : List TorrentInfo) (dry_run : Bool) (oracle : String → Bool)
    (h : (broken_fetch = none ∧ under_repair_fetch = some l) ∨
         (broken_fetch = some l ∧ under_repair_fetch = none)) :
    (perform_check stats now total_stats broken_fetch under_repair_fetch
        dry_run oracle).aborted = false ∧
    (perform_check stats now total_stats broken_fetch under_repair_fetch
        dry_run oracle).partial_warnings = 1 ∧
    (broken_fetch = none →
      (perform_check stats now total_stats broken_fetch under_repair_fetch
          dry_run oracle).stats.current_check.broken_found = 0 ∧
      (perform_check stats now total_stats broken_fetch under_repair_fetch
          dry_run oracle).stats.current_check.broken_hashes = []) ∧
    (under_repair_fetch = none →
      (perform_check stats now total_stats broken_fetch under_repair_fetch
          dry_run oracle).stats.current_check.under_repair_found = 0 ∧
      (perform_check stats now total_stats broken_fetch under_repair_fetch
          dry_run oracle).stats.current_check.under_repair_hashes = []) ∧
    (∀ t ∈ l, t.hash ∈
      (perform_check stats now total_stats broken_fetch under_repair_fetch
          dry_run oracle).attempted) := by
  rcases h with ⟨rfl, rfl⟩ | ⟨rfl, rfl⟩
  · cases l with
    | nil =>
      refine ⟨rfl, rfl, ?_, ?_, ?_⟩ <;>
        simp [perform_check, pbc_nil, puc_nil, abl_nil, aul_nil]
    | cons t0 rest =>
      have hatt : (perform_check stats now total_stats none (some (t0 :: rest))
          dry_run oracle).attempted = List.map TorrentInfo.hash (t0 :: rest) := by
        simp [perform_check]
      refine ⟨rfl, rfl, ?_, ?_, ?_⟩
      · simp [perform_check, pbc_nil, puc_nil, abl_nil, aul_nil,
          triggerAll_cc_broken_found, triggerAll_cc_broken_hashes,
          triggerAll_cc_under_repair_found, triggerAll_cc_under_repair_hashes]
      · simp [perform_check, pbc_nil, puc_nil, abl_nil, aul_nil]
      · intro t' ht'
        rw [hatt]
        exact List.mem_map_of_mem _ ht'
  · cases l with
    | nil =>
      refine ⟨rfl, rfl, ?_, ?_, ?_⟩ <;>
        simp [perform_check, pbc_nil, puc_nil, abl_nil, aul_nil]
    | cons t0 rest =>
      have hatt : (perform_check stats now total_stats (some (t0 :: rest)) none
          dry_run oracle).attempted = List.map TorrentInfo.hash (t0 :: rest) := by
        simp [perform_check]
      refine ⟨rfl, rfl, ?_, ?_, ?_⟩
      · simp [perform_check, pbc_nil, puc_nil, abl_nil, aul_nil]
      · simp [perform_check, pbc_nil, puc_nil, abl_nil, aul_nil,
          triggerAll_cc_broken_found, triggerAll_cc_broken_hashes,
          triggerAll_cc_under_repair_found, triggerAll_cc_under_repair_hashes]
      · intro t' ht'
        rw [hatt]
        exact List.mem_map_of_mem _ ht'

/-- Claim C6 witness: the specification's example — the broken fetch
fails while the under-repair fetch succeeds with 2 entities; both still
get their repair trigger attempted. -/
theorem partial_failure_still_processes_witness :
    (((none : Option (List TorrentInfo)) = none ∧
        (some [⟨"h1", "n1", "status_under_repair"⟩,
            ⟨"h2", "n2", "status_under_repair"⟩] : Option (List TorrentInfo)) =
          some [⟨"h1", "n1", "status_under_repair"⟩,
            ⟨"h2", "n2", "status_under_repair"⟩]) ∨
      ((none : Option (List TorrentInfo)) =
          some [⟨"h1", "n1", "status_under_repair"⟩,
            ⟨"h2", "n2", "status_under_repair"⟩] ∧
        (some [⟨"h1", "n1", "status_under_repair"⟩,
            ⟨"h2", "n2", "status_under_repair"⟩] : Option (List TorrentInfo)) =
          none)) ∧
    ((perform_check {} 3 none none
        (some [⟨"h1", "n1", "status_under_repair"⟩,
          ⟨"h2", "n2", "status_under_repair"⟩]) false (fun _ => true)).aborted =
        false ∧
      (perform_check {} 3 none none
          (some [⟨"h1", "n1", "status_under_repair"⟩,
            ⟨"h2", "n2", "status_under_repair"⟩]) false
          (fun _ => true)).partial_warnings = 1 ∧
      ((none : Option (List TorrentInfo)) = none →
        (perform_check {} 3 none none
            (some [⟨"h1", "n1", "status_under_repair"⟩,
              ⟨"h2", "n2", "status_under_repair"⟩]) false
            (fun _ => true)).stats.current_check.broken_found = 0 ∧
        (perform_check {} 3 none none
            (some [⟨"h1", "n1", "status_under_repair"⟩,
              ⟨"h2", "n2", "status_under_repair"⟩]) false
            (fun _ => true)).stats.current_check.broken_hashes = []) ∧
      ((some [⟨"h1", "n1", "status_under_repair"⟩,
          ⟨"h2", "n2", "status_under_repair"⟩] : Option (List TorrentInfo)) =
          none →
        (perform_check {} 3 none none
            (some [⟨"h1", "n1", "status_under_repair"⟩,
              ⟨"h2", "n2", "status_under_repair"⟩]) false
            (fun _ => true)).stats.current_check.under_repair_found = 0 ∧
        (perform_check {} 3 none none
            (some [⟨"h1", "n1", "status_under_repair"⟩,
              ⟨"h2", "n2", "status_under_repair"⟩]) false
            (fun _ => true)).stats.current_check.under_repair_hashes = []) ∧
      (∀ t ∈ [(⟨"h1", "n1", "status_under_repair"⟩ : TorrentInfo),
          ⟨"h2", "n2", "status_under_repair"⟩],
        t.hash ∈ (perform_check {} 3 none none
            (some [⟨"h1", "n1", "status_under_repair"⟩,
              ⟨"h2", "n2", "status_under_repair"⟩]) false
            (fun _ => true)).attempted)) :=
  ⟨Or.inl ⟨rfl, rfl⟩,
    partial_failure_still_processes {} 3 none none
      (some [⟨"h1", "n1", "status_under_repair"⟩,
        ⟨"h2", "n2", "status_under_repair"⟩])
      [⟨"h1", "n1", "status_under_repair"⟩, ⟨"h2", "n2", "status_under_repair"⟩]
      false (fun _ => true) (Or.inl ⟨rfl, rfl⟩)⟩

lemma perform_check_total_checks_mono (stats : OverallStats) (now : Nat)
    (total_stats : Option Nat)
    (broken_fetch under_repair_fetch : Option (List TorrentInfo))
    (dry_run : Bool) (oracle : String → Bool) :
    stats.total_checks ≤
      (perform_check stats now total_stats broken_fetch under_repair_fetch
          dry_run oracle).stats.total_checks := by
  unfold perform_check
  dsimp only
  split
  · simp
  · split
    · simp
    · simp

lemma perform_check_broken_found_mono (stats : OverallStats) (now : Nat)
    (total_stats : Option Nat)
    (broken_fetch under_repair_fetch : Option (List TorrentInfo))
    (dry_run : Bool) (oracle : String → Bool) :
    stats.broken_found ≤
      (perform_check stats now total_stats broken_fetch under_repair_fetch
          dry_run oracle).stats.broken_found := by
  unfold perform_check
  dsimp only
  split
  · simp
  · split
    · simp only [shs_broken_found, aul_broken_found, abl_broken_found,
        cok_broken_found, puc_broken_found]
      refine Nat.le_trans ?_ (pbc_broken_found_le _ _ _)
      simp
    · simp only [ss_broken_found, ite_triggerAll_broken_found, aul_broken_found,
        abl_broken_found, cok_broken_found, puc_broken_found]
      refine Nat.le_trans ?_ (pbc_broken_found_le _ _ _)
      simp

lemma perform_check_under_repair_found_mono (stats : OverallStats) (now : Nat)
    (total_stats : Option Nat)
    (broken_fetch under_repair_fetch : Option (List TorrentInfo))
    (dry_run : Bool) (oracle : String → Bool) :
    stats.under_repair_found ≤
      (perform_check stats now total_stats broken_fetch under_repair_fetch
          dry_run oracle).stats.under_repair_found := by
  unfold perform_check
  dsimp only
  split
  · simp
  · split
    · simp only [shs_under_repair_found, aul_under_repair_found,
        abl_under_repair_found, cok_under_repair_found]
      refine Nat.le_trans ?_ (puc_under_repair_found_le _ _)
      simp
    · simp only [ss_under_repair_found, ite_triggerAll_under_repair_found,
        aul_under_repair_found, abl_under_repair_found, cok_under_repair_found]
      refine Nat.le_trans ?_ (puc_under_repair_found_le _ _)
      simp

lemma perform_check_repairs_triggered_mono (stats : OverallStats) (now : Nat)
    (total_stats : Option Nat)
    (broken_fetch under_repair_fetch : Option (List TorrentInfo))
    (dry_run : Bool) (oracle : String → Bool) :
    stats.repairs_triggered ≤
      (perform_check stats now total_stats broken_fetch under_repair_fetch
          dry_run oracle).stats.repairs_triggered := by
  unfold perform_check
  dsimp only
  split
  · simp
  · split
    · simp
    · simp only [ss_repairs_triggered]
      refine Nat.le_trans ?_ (ite_triggerAll_repairs_triggered_le _ _ _ _ _)
      refine Nat.le_trans ?_ (ite_triggerAll_repairs_triggered_le _ _ _ _ _)
      simp

/-- Claim C9: whatever the fetch outcomes and trigger results, one
`perform_check` cycle never decreases any of the four cumulative
counters of the aggregate statistics. -/
theorem cumulative_counters_monotone (stats : OverallStats) (now : Nat)
    (total_stats : Option Nat)
    (broken_fetch under_repair_fetch : Option (List TorrentInfo))
    (dry_run : Bool) (oracle : String → Bool) :
    stats.total_checks ≤
      (perform_check stats now total_stats broken_fetch under_repair_fetch
          dry_run oracle).stats.total_checks ∧
    stats.broken_found ≤
      (perform_check stats now total_stats broken_fetch under_repair_fetch
          dry_run oracle).stats.broken_found ∧
    stats.under_repair_found ≤
      (perform_check stats now total_stats broken_fetch under_repair_fetch
          dry_run oracle).stats.under_repair_found ∧
    stats.repairs_triggered ≤
      (perform_check stats now total_stats broken_fetch under_repair_fetch
          dry_run oracle).stats.repairs_triggered :=
  ⟨perform_check_total_checks_mono stats now total_stats broken_fetch
      under_repair_fetch dry_run oracle,
    perform_check_broken_found_mono stats now total_stats broken_fetch
      under_repair_fetch dry_run oracle,
    perform_check_under_repair_found_mono stats now total_stats broken_fetch
      under_repair_fetch dry_run oracle,
    perform_check_repairs_triggered_mono stats now total_stats broken_fetch
      under_repair_fetch dry_run oracle⟩

/-! Lemmas about the identifier-attribute scan.  The goal is claim C8:
the non-overlapping `re.finditer` scan collects, up to the final
set-insertion, exactly the identifiers whose attribute matches at *any*
position of the markup.  The crux is that a successful match (52
characters `data-hash="` + 40 hex + `"`) contains no other match start
strictly inside it, so the 51 positions `finditer` skips cannot hide a
match. -/

lemma matchHashAttrAt_of_take_ne {l : List Char} (h : ¬ l.take 11 = dataHashLit) :
    matchHashAttrAt l = none := by
  unfold matchHashAttrAt
  rw [if_neg h]

lemma matchHashAttrAt_cons_ne {c : Char} (t : List Char) (hc : c ≠ 'd') :
    matchHashAttrAt (c :: t) = none := by
  apply matchHashAttrAt_of_take_ne
  intro he
  have he' : c :: t.take 10 =
      ['d', 'a', 't', 'a', '-', 'h', 'a', 's', 'h', '=', '\"'] := he
  injection he' with h1 _
  exact hc h1

lemma matchHashAttrAt_nil : matchHashAttrAt [] = none := by
  apply matchHashAttrAt_of_take_ne
  intro he
  exact absurd he (by decide)

/-- A successful match decomposes the input as the literal,
40 hex characters, the closing quote, and the rest. -/
lemma matchHashAttrAt_decomp {l h : List Char} (hm : matchHashAttrAt l = some h) :
    l = dataHashLit ++ (h ++ '\"' :: l.drop 52) ∧ h.length = 40 ∧
      h.all isHexChar = true := by
  unfold matchHashAttrAt at hm
  split at hm
  · next hpre =>
    split at hm
    · next hcond =>
      rw [Bool.and_eq_true] at hcond
      obtain ⟨hlen, hhex⟩ := hcond
      have hlen' : ((l.drop 11).take 40).length = 40 := by
        simpa using hlen
      split at hm
      · next cs hqu =>
        have hh : h = (l.drop 11).take 40 := by
          injection hm with hm'
          exact hm'.symm
        subst hh
        refine ⟨?_, hlen', hhex⟩
        have h51 : (l.drop 11).drop 40 = l.drop 51 := by
          rw [List.drop_drop]
        have hqu' : l.drop 51 = '\"' :: cs := by rw [← h51, hqu]
        have hcs : cs = l.drop 52 := by
          have h52 : l.drop 52 = (l.drop 51).drop 1 := by
            rw [List.drop_drop]
          rw [h52, hqu']
          rfl
        calc l = l.take 11 ++ l.drop 11 := (List.take_append_drop 11 l).symm
          _ = dataHashLit ++ l.drop 11 := by rw [hpre]
          _ = dataHashLit ++ ((l.drop 11).take 40 ++ (l.drop 11).drop 40) := by
                rw [List.take_append_drop]
          _ = dataHashLit ++ ((l.drop 11).take 40 ++ '\"' :: l.drop 52) := by
                rw [h51, hqu', hcs]
      · exact absurd hm (by simp)
    · exact absurd hm (by simp)
  · exact absurd hm (by simp)

/-- A string of hex characters followed by a quote never starts a
match: the literal `data-hash="` needs `d`, then `a`, then the non-hex
`t` within its first three characters. -/
lemma matchHashAttrAt_hex_quote (hs : List Char) (t : List Char)
    (hhex : hs.all isHexChar = true) :
    matchHashAttrAt (hs ++ '\"' :: t) = none := by
  match hs, hhex with
  | [], _ => exact matchHashAttrAt_cons_ne t (by decide)
  | [a], _ =>
    apply matchHashAttrAt_of_take_ne
    intro he
    have he' : a :: '\"' :: t.take 9 =
        ['d', 'a', 't', 'a', '-', 'h', 'a', 's', 'h', '=', '\"'] := he
    injection he' with h1 he2
    injection he2 with h2 _
    exact absurd h2 (by decide)
  | a :: b :: hs', hh =>
    apply matchHashAttrAt_of_take_ne
    intro he
    have he' : a :: b :: (hs' ++ '\"' :: t).take 9 =
        ['d', 'a', 't', 'a', '-', 'h', 'a', 's', 'h', '=', '\"'] := he
    injection he' with h1 he2
    injection he2 with h2 he3
    match hs' with
    | [] =>
      have he4 : '\"' :: t.take 8 =
          ['t', 'a', '-', 'h', 'a', 's', 'h', '=', '\"'] := he3
      injection he4 with h3 _
      exact absurd h3 (by decide)
    | c :: hs'' =>
      have he4 : c :: (hs'' ++ '\"' :: t).take 8 =
          ['t', 'a', '-', 'h', 'a', 's', 'h', '=', '\"'] := he3
      injection he4 with h3 _
      rw [List.all_cons, List.all_cons, List.all_cons, Bool.and_eq_true,
        Bool.and_eq_true, Bool.and_eq_true] at hh
      have hc : isHexChar c = true := hh.2.2.1
      rw [h3] at hc
      exact absurd hc (by decide)

/-- No new match starts strictly inside a successful 52-character
match: dropping `1 ≤ j ≤ 51` characters of a matching string leaves a
string that does not match. -/
lemma matchHashAttrAt_drop_inner {l h : List Char}
    (hm : matchHashAttrAt l = some h) :
    ∀ j, 1 ≤ j → j ≤ 51 → matchHashAttrAt (l.drop j) = none := by
  obtain ⟨hdec, hlen, hhex⟩ := matchHashAttrAt_decomp hm
  intro j h1 h51
  rcases Nat.lt_or_ge j 11 with hj | hj
  · -- the dropped string starts inside the literal part
    rw [hdec]
    interval_cases j <;> exact matchHashAttrAt_cons_ne _ (by decide)
  · -- the dropped string starts inside the hex characters or at the quote
    have hj' : j = (dataHashLit : List Char).length + (j - 11) := by
      have : (dataHashLit : List Char).length = 11 := rfl
      omega
    rw [hdec, hj', List.drop_append]
    have hle : j - 11 ≤ h.length := by omega
    rw [List.drop_append_of_le_length hle]
    apply matchHashAttrAt_hex_quote
    rw [List.all_eq_true] at hhex ⊢
    exact fun x hx => hhex x (List.mem_of_mem_drop hx)

/-- The non-overlapping left-to-right scan finds exactly the matches of
all suffixes: skipping the 51 positions inside a successful match loses
nothing, because no match starts there. -/
lemma mem_findHashAttrs_iff (l x : List Char) :
    x ∈ findHashAttrs l ↔ ∃ s, s <:+ l ∧ matchHashAttrAt s = some x := by
  generalize hn : l.length = n
  induction n using Nat.strong_induction_on generalizing l with
  | _ n ih =>
  subst hn
  cases l with
  | nil =>
    constructor
    · intro hx
      simp [findHashAttrs] at hx
    · rintro ⟨s, hs, hsm⟩
      rw [List.suffix_nil.mp hs, matchHashAttrAt_nil] at hsm
      exact absurd hsm (by simp)
  | cons c rest =>
    cases hm : matchHashAttrAt (c :: rest) with
    | none =>
      have heq : findHashAttrs (c :: rest) = findHashAttrs rest := by
        rw [findHashAttrs, hm]
      rw [heq, ih rest.length (by simp) rest rfl]
      constructor
      · rintro ⟨s, hs, hsm⟩
        exact ⟨s, hs.trans (List.suffix_cons c rest), hsm⟩
      · rintro ⟨s, hs, hsm⟩
        rcases List.suffix_cons_iff.mp hs with rfl | hs'
        · rw [hm] at hsm
          exact absurd hsm (by simp)
        · exact ⟨s, hs', hsm⟩
    | some h =>
      have heq : findHashAttrs (c :: rest) = h :: findHashAttrs (rest.drop 51) := by
        rw [findHashAttrs, hm]
      have hlt : (rest.drop 51).length < (c :: rest).length := by
        simp only [List.length_drop, List.length_cons]
        omega
      rw [heq, List.mem_cons, ih (rest.drop 51).length hlt (rest.drop 51) rfl]
      constructor
      · intro hx
        rcases hx with rfl | ⟨s, hs, hsm⟩
        · exact ⟨c :: rest, List.suffix_refl _, hm⟩
        · refine ⟨s, ?_, hsm⟩
          have h1 : rest.drop 51 <:+ rest := List.drop_suffix _ _
          exact (hs.trans h1).trans (List.suffix_cons c rest)
      · rintro ⟨s, hs, hsm⟩
        obtain ⟨p, hp⟩ := hs
        have hsd : s = (c :: rest).drop p.length := by
          rw [← hp, List.drop_left]
        rcases Nat.eq_zero_or_pos p.length with hp0 | hp1
        · left
          rw [hp0, List.drop_zero] at hsd
          rw [hsd, hm] at hsm
          injection hsm with hsm'
          exact hsm'.symm
        · rcases Nat.lt_or_ge p.length 52 with hp51 | hp52
          · exact absurd (hsd ▸ hsm)
              (by rw [matchHashAttrAt_drop_inner hm p.length hp1 (by omega)]; simp)
          · right
            refine ⟨s, ?_, hsm⟩
            have heq2 : (c :: rest).drop p.length =
                (rest.drop 51).drop (p.length - 52) := by
              have e1 : (c :: rest).drop p.length = rest.drop (p.length - 1) := by
                obtain ⟨m, hm'⟩ : ∃ m, p.length = m + 1 := ⟨p.length - 1, by omega⟩
                rw [hm', List.drop_succ_cons]
                simp
              have e2 : (rest.drop 51).drop (p.length - 52) =
                  rest.drop (51 + (p.length - 52)) := by
                rw [List.drop_drop]
              have e3 : 51 + (p.length - 52) = p.length - 1 := by omega
              rw [e1, e2, e3]
            rw [hsd, heq2]
            exact List.drop_suffix _ _

/-- Claim C8: for every raw full-listing markup string, the total-count
scan returns the number of distinct identifiers found anywhere in the
markup, independent of category: the number of distinct case-folded
40-hex-character identifiers whose `data-hash` attribute matches at any
position (so two occurrences of the same identifier — also ones
differing only in letter case — are counted once). -/
theorem count_total_distinct (markup : List Char) :
    get_total_torrent_stats markup = (identifiersInMarkup markup).card := by
  unfold get_total_torrent_stats identifiersInMarkup
  congr 1
  apply Finset.ext
  intro a
  simp only [List.mem_toFinset, List.mem_map, List.mem_filterMap, List.mem_tails]
  constructor
  · rintro ⟨h, hh, rfl⟩
    obtain ⟨s, hs, hsm⟩ := (mem_findHashAttrs_iff markup h).mp hh
    exact ⟨h, ⟨s, hs, hsm⟩, rfl⟩
  · rintro ⟨h, ⟨s, hs, hsm⟩, rfl⟩
    exact ⟨h, (mem_findHashAttrs_iff markup h).mpr ⟨s, hs, hsm⟩, rfl⟩

end ZurgMonitor
